import Mathlib

/-!
Verification of the pomodoro session state machine of `pomodoro.py`
(class `PomodoroTimerDialog`).  The embedding below translates the logic
methods of that class (lines 479-624) into pure state-transition
functions: the Qt timer object is modelled by the boolean field
`timer_active` (`self.timer.isActive()`), `self.timer.start(1000)` sets
it and `self.timer.stop()` clears it, and each Qt signal emission is
collected into an explicit event list.  Pure display updates
(`update_ui_for_current_state`, labels, progress bar) carry no session
state and are omitted.
-/

namespace ApeiriaLive

/-- The eight phases of the pomodoro dialog, one constructor per
`STATE_*` string constant of `PomodoroTimerDialog`. -/
inductive PomodoroState
  | STATE_IDLE
  | STATE_WORK
  | STATE_SHORT_BREAK
  | STATE_LONG_BREAK
  | STATE_WAITING_FOR_WORK_CONFIRMATION
  | STATE_WAITING_FOR_SHORT_BREAK_CONFIRMATION
  | STATE_WAITING_FOR_LONG_BREAK_CONFIRMATION
  | STATE_SNOOZING
  deriving DecidableEq, Repr

open PomodoroState

/-- The four Qt signals of `PomodoroTimerDialog`, one constructor per
signal, with the payloads actually emitted by the code. -/
inductive PomEvent
  | pomodoro_state_changed (state : PomodoroState) (remaining : Int)
  | pomodoro_session_finished (finished : PomodoroState)
  | pomodoro_confirmation_required (kind : String)
  | pomodoro_snooze_activated (kind : String)
  deriving DecidableEq, Repr

/-- Logic configuration, mirroring `PomodoroConfig.__init__`.  The five
fields are Python ints (set from spin boxes whose ranges start at 1). -/
structure PomodoroConfig where
  work_duration_minutes : Int
  short_break_minutes : Int
  long_break_minutes : Int
  cycles_before_long_break : Int
  snooze_duration_minutes : Int
  deriving DecidableEq, Repr

/-- Default values assigned in `PomodoroConfig.__init__`. -/
def PomodoroConfig.default : PomodoroConfig :=
  { work_duration_minutes := 25, short_break_minutes := 5, long_break_minutes := 15,
    cycles_before_long_break := 4, snooze_duration_minutes := 5 }

def PomodoroConfig.get_work_duration_seconds (c : PomodoroConfig) : Int :=
  c.work_duration_minutes * 60

def PomodoroConfig.get_short_break_seconds (c : PomodoroConfig) : Int :=
  c.short_break_minutes * 60

def PomodoroConfig.get_long_break_seconds (c : PomodoroConfig) : Int :=
  c.long_break_minutes * 60

def PomodoroConfig.get_snooze_duration_seconds (c : PomodoroConfig) : Int :=
  c.snooze_duration_minutes * 60

/-- All five configuration fields are positive, as guaranteed by the
defaults and by the settings dialog spin boxes (ranges 1-120, 1-60,
1-120, 1-10, 1-30). -/
def PomodoroConfig.positive (c : PomodoroConfig) : Prop :=
  0 < c.work_duration_minutes ∧ 0 < c.short_break_minutes ∧
    0 < c.long_break_minutes ∧ 0 < c.cycles_before_long_break ∧
    0 < c.snooze_duration_minutes

instance (c : PomodoroConfig) : Decidable c.positive := by
  unfold PomodoroConfig.positive; infer_instance

/-- The mutable session fields of `PomodoroTimerDialog`:
`current_state`, `cycles_completed`, `remaining_seconds`,
`session_type_to_confirm_after_snooze` (a Python string, one of
`""`, `"work"`, `"short_break"`, `"long_break"`), and `timer_active`
standing for `self.timer.isActive()`. -/
structure SessionState where
  current_state : PomodoroState
  cycles_completed : Int
  remaining_seconds : Int
  session_type_to_confirm_after_snooze : String
  timer_active : Bool
  deriving DecidableEq, Repr

/-- Embedding of `set_time_for_state` (pomodoro.py lines 479-490): loads
`remaining_seconds` with the configured duration of the given state.
Note that `STATE_IDLE` loads the work duration, not zero. -/
def set_time_for_state (cfg : PomodoroConfig) (st : SessionState)
    (state_to_set_time_for : PomodoroState) : SessionState :=
  match state_to_set_time_for with
  | STATE_WORK => { st with remaining_seconds := cfg.get_work_duration_seconds }
  | STATE_SHORT_BREAK => { st with remaining_seconds := cfg.get_short_break_seconds }
  | STATE_LONG_BREAK => { st with remaining_seconds := cfg.get_long_break_seconds }
  | STATE_SNOOZING => { st with remaining_seconds := cfg.get_snooze_duration_seconds }
  | STATE_IDLE => { st with remaining_seconds := cfg.get_work_duration_seconds }
  | STATE_WAITING_FOR_WORK_CONFIRMATION =>
      { st with remaining_seconds := cfg.get_work_duration_seconds }
  | STATE_WAITING_FOR_SHORT_BREAK_CONFIRMATION =>
      { st with remaining_seconds := cfg.get_short_break_seconds }
  | STATE_WAITING_FOR_LONG_BREAK_CONFIRMATION =>
      { st with remaining_seconds := cfg.get_long_break_seconds }

/-- Embedding of `transition_to_state` (lines 598-610): sets the phase, re-derives
`remaining_seconds`, and starts the timer (emitting
`pomodoro_state_changed`) only when `start_timer` holds and the loaded
time is positive; with `start_timer = false` it stops the timer. -/
def transition_to_state (cfg : PomodoroConfig) (st : SessionState)
    (new_state : PomodoroState) (start_timer : Bool) :
    SessionState × List PomEvent :=
  let st1 := { st with current_state := new_state }
  let st2 := set_time_for_state cfg st1 new_state
  if start_timer = true ∧ st2.remaining_seconds > 0 then
    ({ st2 with timer_active := true },
      [PomEvent.pomodoro_state_changed st2.current_state st2.remaining_seconds])
  else if start_timer = false then
    ({ st2 with timer_active := false }, [])
  else
    (st2, [])

/-- Embedding of `go_to_idle_state` (lines 595-596). -/
def go_to_idle_state (cfg : PomodoroConfig) (st : SessionState) :
    SessionState × List PomEvent :=
  transition_to_state cfg st STATE_IDLE false

/-- Embedding of `process_timed_session_completion` (lines 528-557): emit
`pomodoro_session_finished` for work and break phases, route a finished
work phase by the post-increment cycle count, restore the snoozed
confirmation after a finished snooze, transition without starting the
timer, and emit `pomodoro_confirmation_required` when a confirmation
type was determined. -/
def process_timed_session_completion (cfg : PomodoroConfig) (st : SessionState) :
    SessionState × List PomEvent :=
  let finished_session := st.current_state
  let evs1 : List PomEvent :=
    if finished_session = STATE_WORK ∨ finished_session = STATE_SHORT_BREAK ∨
        finished_session = STATE_LONG_BREAK then
      [PomEvent.pomodoro_session_finished finished_session]
    else []
  let step : SessionState × PomodoroState × String :=
    if finished_session = STATE_WORK then
      let stw := { st with cycles_completed := st.cycles_completed + 1 }
      if stw.cycles_completed > 0 ∧
          stw.cycles_completed % cfg.cycles_before_long_break = 0 then
        (stw, STATE_WAITING_FOR_LONG_BREAK_CONFIRMATION, "long_break")
      else
        (stw, STATE_WAITING_FOR_SHORT_BREAK_CONFIRMATION, "short_break")
    else if finished_session = STATE_SHORT_BREAK ∨ finished_session = STATE_LONG_BREAK then
      (st, STATE_WAITING_FOR_WORK_CONFIRMATION, "work")
    else if finished_session = STATE_SNOOZING then
      let new_state :=
        if st.session_type_to_confirm_after_snooze = "work" then
          STATE_WAITING_FOR_WORK_CONFIRMATION
        else if st.session_type_to_confirm_after_snooze = "short_break" then
          STATE_WAITING_FOR_SHORT_BREAK_CONFIRMATION
        else if st.session_type_to_confirm_after_snooze = "long_break" then
          STATE_WAITING_FOR_LONG_BREAK_CONFIRMATION
        else STATE_IDLE
      (st, new_state, st.session_type_to_confirm_after_snooze)
    else
      (st, STATE_IDLE, "")
  let r := transition_to_state cfg step.1 step.2.1 false
  let evs3 : List PomEvent :=
    if step.2.2 ≠ "" then [PomEvent.pomodoro_confirmation_required step.2.2] else []
  (r.1, evs1 ++ r.2 ++ evs3)

/-- Embedding of `update_timer_countdown` (lines 514-525), the per-second tick: a
positive countdown is decremented (emitting `pomodoro_state_changed`
while the timer is active); when the countdown is then non-positive and
the timer is active, the timer stops and completion runs. -/
def update_timer_countdown (cfg : PomodoroConfig) (st : SessionState) :
    SessionState × List PomEvent :=
  let r1 : SessionState × List PomEvent :=
    if st.remaining_seconds > 0 then
      let st1 := { st with remaining_seconds := st.remaining_seconds - 1 }
      (st1,
        if st1.timer_active = true then
          [PomEvent.pomodoro_state_changed st1.current_state st1.remaining_seconds]
        else [])
    else (st, [])
  if r1.1.remaining_seconds ≤ 0 then
    if r1.1.timer_active = true then
      let st2 := { r1.1 with timer_active := false }
      let r2 := process_timed_session_completion cfg st2
      (r2.1, r1.2 ++ r2.2)
    else r1
  else r1

/-- Embedding of `handle_main_action_button_click` (lines 492-512): start work from
idle, toggle pause in a timed phase (resuming only with time left), and
confirm the pending phase from a waiting state. -/
def handle_main_action_button_click (cfg : PomodoroConfig) (st : SessionState) :
    SessionState × List PomEvent :=
  if st.current_state = STATE_IDLE then
    transition_to_state cfg st STATE_WORK true
  else if st.current_state = STATE_WORK ∨ st.current_state = STATE_SHORT_BREAK ∨
      st.current_state = STATE_LONG_BREAK ∨ st.current_state = STATE_SNOOZING then
    if st.timer_active = true then
      ({ st with timer_active := false }, [])
    else if st.remaining_seconds > 0 then
      ({ st with timer_active := true }, [])
    else (st, [])
  else if st.current_state = STATE_WAITING_FOR_WORK_CONFIRMATION then
    transition_to_state cfg st STATE_WORK true
  else if st.current_state = STATE_WAITING_FOR_SHORT_BREAK_CONFIRMATION then
    transition_to_state cfg st STATE_SHORT_BREAK true
  else if st.current_state = STATE_WAITING_FOR_LONG_BREAK_CONFIRMATION then
    transition_to_state cfg st STATE_LONG_BREAK true
  else (st, [])

/-- Embedding of `handle_snooze_button_click` (lines 559-571): from a waiting state,
record the deferred confirmation string, enter `STATE_SNOOZING` with the
timer started, and emit `pomodoro_snooze_activated`; from any other
state, an early return leaves everything unchanged. -/
def handle_snooze_button_click (cfg : PomodoroConfig) (st : SessionState) :
    SessionState × List PomEvent :=
  if st.current_state = STATE_WAITING_FOR_WORK_CONFIRMATION then
    let st1 := { st with session_type_to_confirm_after_snooze := "work" }
    let r := transition_to_state cfg st1 STATE_SNOOZING true
    (r.1, r.2 ++ [PomEvent.pomodoro_snooze_activated "work"])
  else if st.current_state = STATE_WAITING_FOR_SHORT_BREAK_CONFIRMATION then
    let st1 := { st with session_type_to_confirm_after_snooze := "short_break" }
    let r := transition_to_state cfg st1 STATE_SNOOZING true
    (r.1, r.2 ++ [PomEvent.pomodoro_snooze_activated "break"])
  else if st.current_state = STATE_WAITING_FOR_LONG_BREAK_CONFIRMATION then
    let st1 := { st with session_type_to_confirm_after_snooze := "long_break" }
    let r := transition_to_state cfg st1 STATE_SNOOZING true
    (r.1, r.2 ++ [PomEvent.pomodoro_snooze_activated "break"])
  else (st, [])

/-- Embedding of `handle_skip_button_click` (lines 573-588): always stops the timer,
then: a timed phase (active or paused) gets its countdown forced to zero
and completed; a waiting-for-work confirmation counts a work cycle and
routes by the post-increment modulo; a waiting-for-break confirmation
announces the implied break as finished and moves to the work
confirmation; idle falls through unchanged. -/
def handle_skip_button_click (cfg : PomodoroConfig) (st : SessionState) :
    SessionState × List PomEvent :=
  let st0 := { st with timer_active := false }
  if st0.current_state = STATE_WORK ∨ st0.current_state = STATE_SHORT_BREAK ∨
      st0.current_state = STATE_LONG_BREAK ∨ st0.current_state = STATE_SNOOZING then
    process_timed_session_completion cfg { st0 with remaining_seconds := 0 }
  else if st0.current_state = STATE_WAITING_FOR_WORK_CONFIRMATION then
    let st1 := { st0 with cycles_completed := st0.cycles_completed + 1 }
    if st1.cycles_completed % cfg.cycles_before_long_break = 0 then
      let r := transition_to_state cfg st1 STATE_WAITING_FOR_LONG_BREAK_CONFIRMATION false
      (r.1, PomEvent.pomodoro_session_finished STATE_WORK :: r.2 ++
        [PomEvent.pomodoro_confirmation_required "long_break"])
    else
      let r := transition_to_state cfg st1 STATE_WAITING_FOR_SHORT_BREAK_CONFIRMATION false
      (r.1, PomEvent.pomodoro_session_finished STATE_WORK :: r.2 ++
        [PomEvent.pomodoro_confirmation_required "short_break"])
  else if st0.current_state = STATE_WAITING_FOR_SHORT_BREAK_CONFIRMATION ∨
      st0.current_state = STATE_WAITING_FOR_LONG_BREAK_CONFIRMATION then
    let original_break_type :=
      if st0.current_state = STATE_WAITING_FOR_SHORT_BREAK_CONFIRMATION then
        STATE_SHORT_BREAK
      else STATE_LONG_BREAK
    let r := transition_to_state cfg st0 STATE_WAITING_FOR_WORK_CONFIRMATION false
    (r.1, PomEvent.pomodoro_session_finished original_break_type :: r.2 ++
      [PomEvent.pomodoro_confirmation_required "work"])
  else (st0, [])

/-- Embedding of `handle_reset_button_click` (lines 590-593): stop the timer, zero
the cycle counter, return to idle, and emit `pomodoro_state_changed`
with the resulting state and countdown. -/
def handle_reset_button_click (cfg : PomodoroConfig) (st : SessionState) :
    SessionState × List PomEvent :=
  let st1 := { st with timer_active := false, cycles_completed := 0 }
  let r := go_to_idle_state cfg st1
  (r.1, r.2 ++
    [PomEvent.pomodoro_state_changed r.1.current_state r.1.remaining_seconds])

/-- Embedding of `handle_settings_button_click` (lines 612-624), restricted to the
accepted-dialog path with the dialog result passed as `newCfg`: the
timer is stopped around the dialog, a non-timed (idle or waiting) phase
re-derives its displayed time from the new configuration, a snoozing
phase re-derives the snooze time, and the timer restarts only when it
was active, the phase is not a non-timed one, and time remains. -/
def handle_settings_button_click (newCfg : PomodoroConfig) (st : SessionState) :
    SessionState :=
  let timer_was_active := st.timer_active
  let st1 := { st with timer_active := false }
  let st2 :=
    if st1.current_state = STATE_IDLE ∨
        st1.current_state = STATE_WAITING_FOR_WORK_CONFIRMATION ∨
        st1.current_state = STATE_WAITING_FOR_SHORT_BREAK_CONFIRMATION ∨
        st1.current_state = STATE_WAITING_FOR_LONG_BREAK_CONFIRMATION then
      set_time_for_state newCfg st1 st1.current_state
    else if st1.current_state = STATE_SNOOZING then
      set_time_for_state newCfg st1 STATE_SNOOZING
    else st1
  if timer_was_active = true ∧
      ¬(st2.current_state = STATE_IDLE ∨
        st2.current_state = STATE_WAITING_FOR_WORK_CONFIRMATION ∨
        st2.current_state = STATE_WAITING_FOR_SHORT_BREAK_CONFIRMATION ∨
        st2.current_state = STATE_WAITING_FOR_LONG_BREAK_CONFIRMATION) ∧
      st2.remaining_seconds > 0 then
    { st2 with timer_active := true }
  else st2

/-- The state right after `__init__` (lines 76-88): the fields are
initialised to idle, zero cycles, zero countdown, empty snooze string
and a stopped timer, and then `go_to_idle_state` runs. -/
def initial_state (cfg : PomodoroConfig) : SessionState :=
  (go_to_idle_state cfg
    { current_state := STATE_IDLE, cycles_completed := 0, remaining_seconds := 0,
      session_type_to_confirm_after_snooze := "", timer_active := false }).1

/-- Iterated `update_timer_countdown`, threading the state and
accumulating the emitted events. -/
def tickN (cfg : PomodoroConfig) :
    Nat → SessionState × List PomEvent → SessionState × List PomEvent
  | 0, acc => acc
  | n + 1, acc =>
      let r := update_timer_countdown cfg acc.1
      tickN cfg n (r.1, acc.2 ++ r.2)

/-- Number of `pomodoro_session_finished` events in a list. -/
def countSessionFinished : List PomEvent → Nat
  | [] => 0
  | PomEvent.pomodoro_session_finished _ :: rest => countSessionFinished rest + 1
  | _ :: rest => countSessionFinished rest

/-- One complete work phase, driven through the public buttons: a
pending break confirmation is skipped, the main button starts (or
confirms) the work phase, and the countdown then runs to completion. -/
def complete_one_work_round (cfg : PomodoroConfig) (st : SessionState) : SessionState :=
  let st1 :=
    if st.current_state = STATE_WAITING_FOR_SHORT_BREAK_CONFIRMATION ∨
        st.current_state = STATE_WAITING_FOR_LONG_BREAK_CONFIRMATION then
      (handle_skip_button_click cfg st).1
    else st
  let st2 := (handle_main_action_button_click cfg st1).1
  (tickN cfg cfg.get_work_duration_seconds.toNat (st2, [])).1

/-- States reachable from the freshly constructed dialog through the
public button handlers and timer ticks.  The tick rule carries the
hypothesis that the Qt timer is active, since `update_timer_countdown`
is connected only to `self.timer.timeout` and a stopped `QTimer` does
not fire.  The settings rule replaces the configuration with any
positive one, as the spin box ranges allow. -/
inductive Reachable : PomodoroConfig → SessionState → Prop
  | init (cfg : PomodoroConfig) (hcfg : cfg.positive) :
      Reachable cfg (initial_state cfg)
  | main_action {cfg : PomodoroConfig} {st : SessionState} (h : Reachable cfg st) :
      Reachable cfg (handle_main_action_button_click cfg st).1
  | timer_tick {cfg : PomodoroConfig} {st : SessionState} (h : Reachable cfg st)
      (hact : st.timer_active = true) :
      Reachable cfg (update_timer_countdown cfg st).1
  | snooze_click {cfg : PomodoroConfig} {st : SessionState} (h : Reachable cfg st) :
      Reachable cfg (handle_snooze_button_click cfg st).1
  | skip_click {cfg : PomodoroConfig} {st : SessionState} (h : Reachable cfg st) :
      Reachable cfg (handle_skip_button_click cfg st).1
  | reset_click {cfg : PomodoroConfig} {st : SessionState} (h : Reachable cfg st) :
      Reachable cfg (handle_reset_button_click cfg st).1
  | settings_click {cfg : PomodoroConfig} {st : SessionState}
      (newCfg : PomodoroConfig) (hcfg : newCfg.positive) (h : Reachable cfg st) :
      Reachable newCfg (handle_settings_button_click newCfg st)

/-- Inductive invariant of the reachable states: the configuration is
positive, the countdown is never negative, and the idle phase always
displays the configured work duration with the timer stopped. -/
def Inv (cfg : PomodoroConfig) (st : SessionState) : Prop :=
  cfg.positive ∧ 0 ≤ st.remaining_seconds ∧ 0 ≤ st.cycles_completed ∧
    (st.current_state = STATE_IDLE →
      st.remaining_seconds = cfg.get_work_duration_seconds ∧ st.timer_active = false)

theorem countSessionFinished_append (a b : List PomEvent) :
    countSessionFinished (a ++ b) = countSessionFinished a + countSessionFinished b := by
  induction a with
  | nil => simp [countSessionFinished]
  | cons e rest ih =>
      cases e with
      | pomodoro_state_changed s r => simpa [countSessionFinished] using ih
      | pomodoro_session_finished s =>
          simp [countSessionFinished, ih]
          omega
      | pomodoro_confirmation_required s => simpa [countSessionFinished] using ih
      | pomodoro_snooze_activated s => simpa [countSessionFinished] using ih

/-- Running the countdown of a state with an active timer all the way
down: after exactly `remaining_seconds` ticks the state is the one
produced by completion from the zeroed, stopped state, and the
accumulated events gain exactly the completion events beyond the
per-second display events. -/
theorem tickN_run (cfg : PomodoroConfig) :
    ∀ (d : Nat) (st : SessionState) (evs : List PomEvent),
      st.timer_active = true → st.remaining_seconds = (d : Int) → 0 < d →
      (tickN cfg d (st, evs)).1 =
        (process_timed_session_completion cfg
          { st with remaining_seconds := 0, timer_active := false }).1 ∧
      countSessionFinished (tickN cfg d (st, evs)).2 =
        countSessionFinished evs +
          countSessionFinished (process_timed_session_completion cfg
            { st with remaining_seconds := 0, timer_active := false }).2 := by
  intro d
  induction d with
  | zero => intro st evs _ _ h; omega
  | succ n ih =>
      intro st evs hact hrem _
      by_cases hn : n = 0
      · subst hn
        have h1 : st.remaining_seconds = 1 := by simpa using hrem
        simp only [tickN, update_timer_countdown, h1, hact]
        norm_num
        simp [countSessionFinished_append, countSessionFinished]
      · have hnpos : 0 < n := Nat.pos_of_ne_zero hn
        have hgt : st.remaining_seconds > 0 := by rw [hrem]; exact_mod_cast Nat.succ_pos n
        have hdec : st.remaining_seconds - 1 = (n : Int) := by rw [hrem]; push_cast; ring
        have hng : ¬((n : Int) ≤ 0) := by exact_mod_cast Nat.not_succ_le_zero (n - 1) ∘ (by omega)
        have hu : update_timer_countdown cfg st =
            ({ st with remaining_seconds := (n : Int) },
              [PomEvent.pomodoro_state_changed st.current_state (n : Int)]) := by
          simp only [update_timer_countdown, hact, hdec, if_pos hgt]
          simp [hng]
        have hstep : tickN cfg (n + 1) (st, evs) =
            tickN cfg n ({ st with remaining_seconds := (n : Int) },
              evs ++ [PomEvent.pomodoro_state_changed st.current_state (n : Int)]) := by
          simp only [tickN, hu]
        rw [hstep]
        have hrec := ih { st with remaining_seconds := (n : Int) }
          (evs ++ [PomEvent.pomodoro_state_changed st.current_state (n : Int)])
          hact rfl hnpos
        simpa [countSessionFinished_append, countSessionFinished] using hrec

theorem work_seconds_pos (cfg : PomodoroConfig) (hpos : cfg.positive) :
    (0 : Int) < cfg.get_work_duration_seconds := by
  have h := hpos.1
  unfold PomodoroConfig.get_work_duration_seconds
  omega

theorem durations_pos (cfg : PomodoroConfig) (hpos : cfg.positive) :
    (0 : Int) < cfg.get_work_duration_seconds ∧
    (0 : Int) < cfg.get_short_break_seconds ∧
    (0 : Int) < cfg.get_long_break_seconds ∧
    (0 : Int) < cfg.get_snooze_duration_seconds := by
  obtain ⟨hw, hs, hl, hc, hz⟩ := hpos
  unfold PomodoroConfig.get_work_duration_seconds PomodoroConfig.get_short_break_seconds
    PomodoroConfig.get_long_break_seconds PomodoroConfig.get_snooze_duration_seconds
  omega

theorem process_short_full (cfg : PomodoroConfig) (k r : Int) (kind : String) (b : Bool) :
    process_timed_session_completion cfg ⟨STATE_SHORT_BREAK, k, r, kind, b⟩ =
      (⟨STATE_WAITING_FOR_WORK_CONFIRMATION, k, cfg.get_work_duration_seconds, kind, false⟩,
        [PomEvent.pomodoro_session_finished STATE_SHORT_BREAK,
          PomEvent.pomodoro_confirmation_required "work"]) := by
  simp [process_timed_session_completion, transition_to_state, set_time_for_state]

theorem process_long_full (cfg : PomodoroConfig) (k r : Int) (kind : String) (b : Bool) :
    process_timed_session_completion cfg ⟨STATE_LONG_BREAK, k, r, kind, b⟩ =
      (⟨STATE_WAITING_FOR_WORK_CONFIRMATION, k, cfg.get_work_duration_seconds, kind, false⟩,
        [PomEvent.pomodoro_session_finished STATE_LONG_BREAK,
          PomEvent.pomodoro_confirmation_required "work"]) := by
  simp [process_timed_session_completion, transition_to_state, set_time_for_state]

theorem process_work_full (cfg : PomodoroConfig) (k : Int) (hk : 0 ≤ k)
    (r : Int) (kind : String) (b : Bool) :
    process_timed_session_completion cfg ⟨STATE_WORK, k, r, kind, b⟩ =
      (if (k + 1) % cfg.cycles_before_long_break = 0 then
        (⟨STATE_WAITING_FOR_LONG_BREAK_CONFIRMATION, k + 1,
            cfg.get_long_break_seconds, kind, false⟩,
          [PomEvent.pomodoro_session_finished STATE_WORK,
            PomEvent.pomodoro_confirmation_required "long_break"])
      else
        (⟨STATE_WAITING_FOR_SHORT_BREAK_CONFIRMATION, k + 1,
            cfg.get_short_break_seconds, kind, false⟩,
          [PomEvent.pomodoro_session_finished STATE_WORK,
            PomEvent.pomodoro_confirmation_required "short_break"])) := by
  by_cases hmod : (k + 1) % cfg.cycles_before_long_break = 0
  · simp [process_timed_session_completion, transition_to_state, set_time_for_state,
      hmod, show k + 1 > 0 by omega]
  · simp [process_timed_session_completion, transition_to_state, set_time_for_state, hmod]

theorem process_snoozing_full (cfg : PomodoroConfig) (k r : Int) (kind : String) (b : Bool) :
    process_timed_session_completion cfg ⟨STATE_SNOOZING, k, r, kind, b⟩ =
      (if kind = "work" then
        (⟨STATE_WAITING_FOR_WORK_CONFIRMATION, k, cfg.get_work_duration_seconds,
            kind, false⟩, [PomEvent.pomodoro_confirmation_required kind])
      else if kind = "short_break" then
        (⟨STATE_WAITING_FOR_SHORT_BREAK_CONFIRMATION, k, cfg.get_short_break_seconds,
            kind, false⟩, [PomEvent.pomodoro_confirmation_required kind])
      else if kind = "long_break" then
        (⟨STATE_WAITING_FOR_LONG_BREAK_CONFIRMATION, k, cfg.get_long_break_seconds,
            kind, false⟩, [PomEvent.pomodoro_confirmation_required kind])
      else if kind = "" then
        (⟨STATE_IDLE, k, cfg.get_work_duration_seconds, kind, false⟩, [])
      else
        (⟨STATE_IDLE, k, cfg.get_work_duration_seconds, kind, false⟩,
          [PomEvent.pomodoro_confirmation_required kind])) := by
  by_cases h1 : kind = "work"
  · simp [process_timed_session_completion, transition_to_state, set_time_for_state, h1]
  · by_cases h2 : kind = "short_break"
    · simp [process_timed_session_completion, transition_to_state, set_time_for_state, h1, h2]
    · by_cases h3 : kind = "long_break"
      · simp [process_timed_session_completion, transition_to_state, set_time_for_state,
          h1, h2, h3]
      · by_cases h4 : kind = ""
        · simp [process_timed_session_completion, transition_to_state, set_time_for_state,
            h1, h2, h3, h4]
        · simp [process_timed_session_completion, transition_to_state, set_time_for_state,
            h1, h2, h3, h4]

theorem process_idle_full (cfg : PomodoroConfig) (k r : Int) (kind : String) (b : Bool) :
    process_timed_session_completion cfg ⟨STATE_IDLE, k, r, kind, b⟩ =
      (⟨STATE_IDLE, k, cfg.get_work_duration_seconds, kind, false⟩, []) := by
  simp [process_timed_session_completion, transition_to_state, set_time_for_state]

theorem process_wait_work_full (cfg : PomodoroConfig) (k r : Int) (kind : String) (b : Bool) :
    process_timed_session_completion cfg
        ⟨STATE_WAITING_FOR_WORK_CONFIRMATION, k, r, kind, b⟩ =
      (⟨STATE_IDLE, k, cfg.get_work_duration_seconds, kind, false⟩, []) := by
  simp [process_timed_session_completion, transition_to_state, set_time_for_state]

theorem process_wait_short_full (cfg : PomodoroConfig) (k r : Int) (kind : String) (b : Bool) :
    process_timed_session_completion cfg
        ⟨STATE_WAITING_FOR_SHORT_BREAK_CONFIRMATION, k, r, kind, b⟩ =
      (⟨STATE_IDLE, k, cfg.get_work_duration_seconds, kind, false⟩, []) := by
  simp [process_timed_session_completion, transition_to_state, set_time_for_state]

theorem process_wait_long_full (cfg : PomodoroConfig) (k r : Int) (kind : String) (b : Bool) :
    process_timed_session_completion cfg
        ⟨STATE_WAITING_FOR_LONG_BREAK_CONFIRMATION, k, r, kind, b⟩ =
      (⟨STATE_IDLE, k, cfg.get_work_duration_seconds, kind, false⟩, []) := by
  simp [process_timed_session_completion, transition_to_state, set_time_for_state]


theorem initial_state_eq (cfg : PomodoroConfig) :
    initial_state cfg =
      ⟨STATE_IDLE, 0, cfg.get_work_duration_seconds, "", false⟩ := by
  simp [initial_state, go_to_idle_state, transition_to_state, set_time_for_state]

theorem process_inv (cfg : PomodoroConfig) (hpos : cfg.positive) (st : SessionState)
    (hk : 0 ≤ st.cycles_completed) :
    Inv cfg (process_timed_session_completion cfg st).1 := by
  obtain ⟨hw, hsb, hlb, hsn⟩ := durations_pos cfg hpos
  obtain ⟨cs, k, r, kind, b⟩ := st
  simp at hk
  cases cs
  case STATE_IDLE =>
      rw [process_idle_full]
      refine ⟨hpos, ?_, ?_, ?_⟩ <;> simp <;> omega
  case STATE_WORK =>
      rw [process_work_full cfg k hk]
      split_ifs <;> refine ⟨hpos, ?_, ?_, ?_⟩ <;> simp <;> omega
  case STATE_SHORT_BREAK =>
      rw [process_short_full]
      refine ⟨hpos, ?_, ?_, ?_⟩ <;> simp <;> omega
  case STATE_LONG_BREAK =>
      rw [process_long_full]
      refine ⟨hpos, ?_, ?_, ?_⟩ <;> simp <;> omega
  case STATE_SNOOZING =>
      rw [process_snoozing_full]
      split_ifs <;> refine ⟨hpos, ?_, ?_, ?_⟩ <;> simp <;> omega
  case STATE_WAITING_FOR_WORK_CONFIRMATION =>
      rw [process_wait_work_full]
      refine ⟨hpos, ?_, ?_, ?_⟩ <;> simp <;> omega
  case STATE_WAITING_FOR_SHORT_BREAK_CONFIRMATION =>
      rw [process_wait_short_full]
      refine ⟨hpos, ?_, ?_, ?_⟩ <;> simp <;> omega
  case STATE_WAITING_FOR_LONG_BREAK_CONFIRMATION =>
      rw [process_wait_long_full]
      refine ⟨hpos, ?_, ?_, ?_⟩ <;> simp <;> omega

theorem main_timed_frame (cfg : PomodoroConfig) (cs : PomodoroState) (k r : Int)
    (kind : String) (b : Bool)
    (hcs : cs = STATE_WORK ∨ cs = STATE_SHORT_BREAK ∨ cs = STATE_LONG_BREAK ∨
      cs = STATE_SNOOZING) :
    ∃ b2, handle_main_action_button_click cfg ⟨cs, k, r, kind, b⟩ =
      (⟨cs, k, r, kind, b2⟩, []) := by
  have hmain : ∀ c, c = STATE_WORK ∨ c = STATE_SHORT_BREAK ∨ c = STATE_LONG_BREAK ∨
      c = STATE_SNOOZING → ∀ b, ∃ b2,
      handle_main_action_button_click cfg ⟨c, k, r, kind, b⟩ = (⟨c, k, r, kind, b2⟩, []) := by
    intro c hc bb
    by_cases hb : bb = true
    · exact ⟨false, by rcases hc with h | h | h | h <;> subst h <;>
        simp [handle_main_action_button_click, hb]⟩
    · by_cases hr2 : r > 0
      · exact ⟨true, by rcases hc with h | h | h | h <;> subst h <;>
          simp [handle_main_action_button_click, hb, hr2]⟩
      · exact ⟨bb, by rcases hc with h | h | h | h <;> subst h <;>
          simp [handle_main_action_button_click, hb, hr2]⟩
  exact hmain cs hcs b

theorem inv_main_action (cfg : PomodoroConfig) (st : SessionState) (h : Inv cfg st) :
    Inv cfg (handle_main_action_button_click cfg st).1 := by
  obtain ⟨hpos, hrem, hk, hidle⟩ := h
  obtain ⟨hw, hsb, hlb, hsn⟩ := durations_pos cfg hpos
  obtain ⟨cs, k, r, kind, b⟩ := st
  simp at hrem hk hidle
  cases cs
  case STATE_IDLE =>
      have he : (handle_main_action_button_click cfg ⟨STATE_IDLE, k, r, kind, b⟩).1 =
          ⟨STATE_WORK, k, cfg.get_work_duration_seconds, kind, true⟩ := by
        simp [handle_main_action_button_click, transition_to_state, set_time_for_state, hw]
      rw [he]
      exact ⟨hpos, by simpa using le_of_lt hw, hk, by simp⟩
  case STATE_WORK =>
      obtain ⟨b2, he⟩ := main_timed_frame cfg STATE_WORK k r kind b (by simp)
      rw [he]
      exact ⟨hpos, hrem, hk, by simp⟩
  case STATE_SHORT_BREAK =>
      obtain ⟨b2, he⟩ := main_timed_frame cfg STATE_SHORT_BREAK k r kind b (by simp)
      rw [he]
      exact ⟨hpos, hrem, hk, by simp⟩
  case STATE_LONG_BREAK =>
      obtain ⟨b2, he⟩ := main_timed_frame cfg STATE_LONG_BREAK k r kind b (by simp)
      rw [he]
      exact ⟨hpos, hrem, hk, by simp⟩
  case STATE_SNOOZING =>
      obtain ⟨b2, he⟩ := main_timed_frame cfg STATE_SNOOZING k r kind b (by simp)
      rw [he]
      exact ⟨hpos, hrem, hk, by simp⟩
  case STATE_WAITING_FOR_WORK_CONFIRMATION =>
      have he : (handle_main_action_button_click cfg
          ⟨STATE_WAITING_FOR_WORK_CONFIRMATION, k, r, kind, b⟩).1 =
          ⟨STATE_WORK, k, cfg.get_work_duration_seconds, kind, true⟩ := by
        simp [handle_main_action_button_click, transition_to_state, set_time_for_state, hw]
      rw [he]
      exact ⟨hpos, by simpa using le_of_lt hw, hk, by simp⟩
  case STATE_WAITING_FOR_SHORT_BREAK_CONFIRMATION =>
      have he : (handle_main_action_button_click cfg
          ⟨STATE_WAITING_FOR_SHORT_BREAK_CONFIRMATION, k, r, kind, b⟩).1 =
          ⟨STATE_SHORT_BREAK, k, cfg.get_short_break_seconds, kind, true⟩ := by
        simp [handle_main_action_button_click, transition_to_state, set_time_for_state, hsb]
      rw [he]
      exact ⟨hpos, by simpa using le_of_lt hsb, hk, by simp⟩
  case STATE_WAITING_FOR_LONG_BREAK_CONFIRMATION =>
      have he : (handle_main_action_button_click cfg
          ⟨STATE_WAITING_FOR_LONG_BREAK_CONFIRMATION, k, r, kind, b⟩).1 =
          ⟨STATE_LONG_BREAK, k, cfg.get_long_break_seconds, kind, true⟩ := by
        simp [handle_main_action_button_click, transition_to_state, set_time_for_state, hlb]
      rw [he]
      exact ⟨hpos, by simpa using le_of_lt hlb, hk, by simp⟩


theorem inv_tick (cfg : PomodoroConfig) (st : SessionState) (h : Inv cfg st)
    (hact : st.timer_active = true) :
    Inv cfg (update_timer_countdown cfg st).1 := by
  obtain ⟨hpos, hrem, hk, hidle⟩ := h
  obtain ⟨cs, k, r, kind, b⟩ := st
  simp at hrem hk hidle hact
  subst hact
  by_cases hgt : r > 0
  · by_cases h1 : r - 1 ≤ 0
    · have he : (update_timer_countdown cfg ⟨cs, k, r, kind, true⟩).1 =
          (process_timed_session_completion cfg ⟨cs, k, r - 1, kind, false⟩).1 := by
        simp [update_timer_countdown, hgt, h1]
      rw [he]
      exact process_inv cfg hpos _ (by simpa using hk)
    · have he : (update_timer_countdown cfg ⟨cs, k, r, kind, true⟩).1 =
          ⟨cs, k, r - 1, kind, true⟩ := by
        simp [update_timer_countdown, hgt, h1]
      rw [he]
      refine ⟨hpos, by simp; omega, hk, fun hcs => ?_⟩
      simp at hcs
      exact absurd (hidle hcs).2 (by simp)
  · have he : (update_timer_countdown cfg ⟨cs, k, r, kind, true⟩).1 =
        (process_timed_session_completion cfg ⟨cs, k, r, kind, false⟩).1 := by
      simp [update_timer_countdown, hgt, show r ≤ 0 by omega]
    rw [he]
    exact process_inv cfg hpos _ (by simpa using hk)

theorem inv_snooze (cfg : PomodoroConfig) (st : SessionState) (h : Inv cfg st) :
    Inv cfg (handle_snooze_button_click cfg st).1 := by
  obtain ⟨hpos, hrem, hk, hidle⟩ := h
  obtain ⟨hw, hsb, hlb, hsn⟩ := durations_pos cfg hpos
  obtain ⟨cs, k, r, kind, b⟩ := st
  simp at hrem hk hidle
  cases cs
  case STATE_WAITING_FOR_WORK_CONFIRMATION =>
      have he : (handle_snooze_button_click cfg
          ⟨STATE_WAITING_FOR_WORK_CONFIRMATION, k, r, kind, b⟩).1 =
          ⟨STATE_SNOOZING, k, cfg.get_snooze_duration_seconds, "work", true⟩ := by
        simp [handle_snooze_button_click, transition_to_state, set_time_for_state, hsn]
      rw [he]
      exact ⟨hpos, by simpa using le_of_lt hsn, hk, by simp⟩
  case STATE_WAITING_FOR_SHORT_BREAK_CONFIRMATION =>
      have he : (handle_snooze_button_click cfg
          ⟨STATE_WAITING_FOR_SHORT_BREAK_CONFIRMATION, k, r, kind, b⟩).1 =
          ⟨STATE_SNOOZING, k, cfg.get_snooze_duration_seconds, "short_break", true⟩ := by
        simp [handle_snooze_button_click, transition_to_state, set_time_for_state, hsn]
      rw [he]
      exact ⟨hpos, by simpa using le_of_lt hsn, hk, by simp⟩
  case STATE_WAITING_FOR_LONG_BREAK_CONFIRMATION =>
      have he : (handle_snooze_button_click cfg
          ⟨STATE_WAITING_FOR_LONG_BREAK_CONFIRMATION, k, r, kind, b⟩).1 =
          ⟨STATE_SNOOZING, k, cfg.get_snooze_duration_seconds, "long_break", true⟩ := by
        simp [handle_snooze_button_click, transition_to_state, set_time_for_state, hsn]
      rw [he]
      exact ⟨hpos, by simpa using le_of_lt hsn, hk, by simp⟩
  case STATE_IDLE =>
      have he : (handle_snooze_button_click cfg ⟨STATE_IDLE, k, r, kind, b⟩).1 =
          ⟨STATE_IDLE, k, r, kind, b⟩ := by
        simp [handle_snooze_button_click]
      rw [he]
      exact ⟨hpos, hrem, hk, fun _ => hidle rfl⟩
  case STATE_WORK =>
      have he : (handle_snooze_button_click cfg ⟨STATE_WORK, k, r, kind, b⟩).1 =
          ⟨STATE_WORK, k, r, kind, b⟩ := by
        simp [handle_snooze_button_click]
      rw [he]
      exact ⟨hpos, hrem, hk, by simp⟩
  case STATE_SHORT_BREAK =>
      have he : (handle_snooze_button_click cfg ⟨STATE_SHORT_BREAK, k, r, kind, b⟩).1 =
          ⟨STATE_SHORT_BREAK, k, r, kind, b⟩ := by
        simp [handle_snooze_button_click]
      rw [he]
      exact ⟨hpos, hrem, hk, by simp⟩
  case STATE_LONG_BREAK =>
      have he : (handle_snooze_button_click cfg ⟨STATE_LONG_BREAK, k, r, kind, b⟩).1 =
          ⟨STATE_LONG_BREAK, k, r, kind, b⟩ := by
        simp [handle_snooze_button_click]
      rw [he]
      exact ⟨hpos, hrem, hk, by simp⟩
  case STATE_SNOOZING =>
      have he : (handle_snooze_button_click cfg ⟨STATE_SNOOZING, k, r, kind, b⟩).1 =
          ⟨STATE_SNOOZING, k, r, kind, b⟩ := by
        simp [handle_snooze_button_click]
      rw [he]
      exact ⟨hpos, hrem, hk, by simp⟩


theorem inv_skip (cfg : PomodoroConfig) (st : SessionState) (h : Inv cfg st) :
    Inv cfg (handle_skip_button_click cfg st).1 := by
  obtain ⟨hpos, hrem, hk, hidle⟩ := h
  obtain ⟨hw, hsb, hlb, hsn⟩ := durations_pos cfg hpos
  obtain ⟨cs, k, r, kind, b⟩ := st
  simp at hrem hk hidle
  cases cs
  case STATE_WORK =>
      have he : (handle_skip_button_click cfg ⟨STATE_WORK, k, r, kind, b⟩).1 =
          (process_timed_session_completion cfg ⟨STATE_WORK, k, 0, kind, false⟩).1 := by
        simp [handle_skip_button_click]
      rw [he]
      exact process_inv cfg hpos _ (by simpa using hk)
  case STATE_SHORT_BREAK =>
      have he : (handle_skip_button_click cfg ⟨STATE_SHORT_BREAK, k, r, kind, b⟩).1 =
          (process_timed_session_completion cfg ⟨STATE_SHORT_BREAK, k, 0, kind, false⟩).1 := by
        simp [handle_skip_button_click]
      rw [he]
      exact process_inv cfg hpos _ (by simpa using hk)
  case STATE_LONG_BREAK =>
      have he : (handle_skip_button_click cfg ⟨STATE_LONG_BREAK, k, r, kind, b⟩).1 =
          (process_timed_session_completion cfg ⟨STATE_LONG_BREAK, k, 0, kind, false⟩).1 := by
        simp [handle_skip_button_click]
      rw [he]
      exact process_inv cfg hpos _ (by simpa using hk)
  case STATE_SNOOZING =>
      have he : (handle_skip_button_click cfg ⟨STATE_SNOOZING, k, r, kind, b⟩).1 =
          (process_timed_session_completion cfg ⟨STATE_SNOOZING, k, 0, kind, false⟩).1 := by
        simp [handle_skip_button_click]
      rw [he]
      exact process_inv cfg hpos _ (by simpa using hk)
  case STATE_WAITING_FOR_WORK_CONFIRMATION =>
      by_cases hmod : (k + 1) % cfg.cycles_before_long_break = 0
      · have he : (handle_skip_button_click cfg
            ⟨STATE_WAITING_FOR_WORK_CONFIRMATION, k, r, kind, b⟩).1 =
            ⟨STATE_WAITING_FOR_LONG_BREAK_CONFIRMATION, k + 1,
              cfg.get_long_break_seconds, kind, false⟩ := by
          simp [handle_skip_button_click, transition_to_state, set_time_for_state, hmod]
        rw [he]
        exact ⟨hpos, by simpa using le_of_lt hlb, by simp; omega, by simp⟩
      · have he : (handle_skip_button_click cfg
            ⟨STATE_WAITING_FOR_WORK_CONFIRMATION, k, r, kind, b⟩).1 =
            ⟨STATE_WAITING_FOR_SHORT_BREAK_CONFIRMATION, k + 1,
              cfg.get_short_break_seconds, kind, false⟩ := by
          simp [handle_skip_button_click, transition_to_state, set_time_for_state, hmod]
        rw [he]
        exact ⟨hpos, by simpa using le_of_lt hsb, by simp; omega, by simp⟩
  case STATE_WAITING_FOR_SHORT_BREAK_CONFIRMATION =>
      have he : (handle_skip_button_click cfg
          ⟨STATE_WAITING_FOR_SHORT_BREAK_CONFIRMATION, k, r, kind, b⟩).1 =
          ⟨STATE_WAITING_FOR_WORK_CONFIRMATION, k,
            cfg.get_work_duration_seconds, kind, false⟩ := by
        simp [handle_skip_button_click, transition_to_state, set_time_for_state]
      rw [he]
      exact ⟨hpos, by simpa using le_of_lt hw, hk, by simp⟩
  case STATE_WAITING_FOR_LONG_BREAK_CONFIRMATION =>
      have he : (handle_skip_button_click cfg
          ⟨STATE_WAITING_FOR_LONG_BREAK_CONFIRMATION, k, r, kind, b⟩).1 =
          ⟨STATE_WAITING_FOR_WORK_CONFIRMATION, k,
            cfg.get_work_duration_seconds, kind, false⟩ := by
        simp [handle_skip_button_click, transition_to_state, set_time_for_state]
      rw [he]
      exact ⟨hpos, by simpa using le_of_lt hw, hk, by simp⟩
  case STATE_IDLE =>
      have he : (handle_skip_button_click cfg ⟨STATE_IDLE, k, r, kind, b⟩).1 =
          ⟨STATE_IDLE, k, r, kind, false⟩ := by
        simp [handle_skip_button_click]
      rw [he]
      exact ⟨hpos, hrem, hk, fun _ => ⟨(hidle rfl).1, rfl⟩⟩

theorem inv_reset (cfg : PomodoroConfig) (st : SessionState) (h : Inv cfg st) :
    Inv cfg (handle_reset_button_click cfg st).1 := by
  obtain ⟨hpos, hrem, hk, hidle⟩ := h
  have hw := (durations_pos cfg hpos).1
  have he : (handle_reset_button_click cfg st).1 =
      ⟨STATE_IDLE, 0, cfg.get_work_duration_seconds,
        st.session_type_to_confirm_after_snooze, false⟩ := by
    simp [handle_reset_button_click, go_to_idle_state, transition_to_state,
      set_time_for_state]
  rw [he]
  exact ⟨hpos, by simpa using le_of_lt hw, by simp, fun _ => ⟨rfl, rfl⟩⟩


theorem inv_settings (cfg newCfg : PomodoroConfig) (st : SessionState)
    (h : Inv cfg st) (hnew : newCfg.positive) :
    Inv newCfg (handle_settings_button_click newCfg st) := by
  obtain ⟨hpos, hrem, hk, hidle⟩ := h
  obtain ⟨hw2, hsb2, hlb2, hsn2⟩ := durations_pos newCfg hnew
  obtain ⟨cs, k, r, kind, b⟩ := st
  simp at hrem hk hidle
  cases cs
  case STATE_IDLE =>
      have he : handle_settings_button_click newCfg ⟨STATE_IDLE, k, r, kind, b⟩ =
          ⟨STATE_IDLE, k, newCfg.get_work_duration_seconds, kind, false⟩ := by
        simp [handle_settings_button_click, set_time_for_state]
      rw [he]
      exact ⟨hnew, by simpa using le_of_lt hw2, hk, fun _ => ⟨rfl, rfl⟩⟩
  case STATE_WAITING_FOR_WORK_CONFIRMATION =>
      have he : handle_settings_button_click newCfg
          ⟨STATE_WAITING_FOR_WORK_CONFIRMATION, k, r, kind, b⟩ =
          ⟨STATE_WAITING_FOR_WORK_CONFIRMATION, k,
            newCfg.get_work_duration_seconds, kind, false⟩ := by
        simp [handle_settings_button_click, set_time_for_state]
      rw [he]
      exact ⟨hnew, by simpa using le_of_lt hw2, hk, by simp⟩
  case STATE_WAITING_FOR_SHORT_BREAK_CONFIRMATION =>
      have he : handle_settings_button_click newCfg
          ⟨STATE_WAITING_FOR_SHORT_BREAK_CONFIRMATION, k, r, kind, b⟩ =
          ⟨STATE_WAITING_FOR_SHORT_BREAK_CONFIRMATION, k,
            newCfg.get_short_break_seconds, kind, false⟩ := by
        simp [handle_settings_button_click, set_time_for_state]
      rw [he]
      exact ⟨hnew, by simpa using le_of_lt hsb2, hk, by simp⟩
  case STATE_WAITING_FOR_LONG_BREAK_CONFIRMATION =>
      have he : handle_settings_button_click newCfg
          ⟨STATE_WAITING_FOR_LONG_BREAK_CONFIRMATION, k, r, kind, b⟩ =
          ⟨STATE_WAITING_FOR_LONG_BREAK_CONFIRMATION, k,
            newCfg.get_long_break_seconds, kind, false⟩ := by
        simp [handle_settings_button_click, set_time_for_state]
      rw [he]
      exact ⟨hnew, by simpa using le_of_lt hlb2, hk, by simp⟩
  case STATE_SNOOZING =>
      by_cases hb : b = true
      · have he : handle_settings_button_click newCfg ⟨STATE_SNOOZING, k, r, kind, b⟩ =
            ⟨STATE_SNOOZING, k, newCfg.get_snooze_duration_seconds, kind, true⟩ := by
          simp [handle_settings_button_click, set_time_for_state, hb, hsn2]
        rw [he]
        exact ⟨hnew, by simpa using le_of_lt hsn2, hk, by simp⟩
      · have he : handle_settings_button_click newCfg ⟨STATE_SNOOZING, k, r, kind, b⟩ =
            ⟨STATE_SNOOZING, k, newCfg.get_snooze_duration_seconds, kind, false⟩ := by
          simp [handle_settings_button_click, set_time_for_state, hb]
        rw [he]
        exact ⟨hnew, by simpa using le_of_lt hsn2, hk, by simp⟩
  case STATE_WORK =>
      by_cases hb : b = true
      · by_cases hr2 : r > 0
        · have he : handle_settings_button_click newCfg ⟨STATE_WORK, k, r, kind, b⟩ =
              ⟨STATE_WORK, k, r, kind, true⟩ := by
            simp [handle_settings_button_click, hb, hr2]
          rw [he]
          exact ⟨hnew, hrem, hk, by simp⟩
        · have he : handle_settings_button_click newCfg ⟨STATE_WORK, k, r, kind, b⟩ =
              ⟨STATE_WORK, k, r, kind, false⟩ := by
            simp [handle_settings_button_click, hb, hr2]
          rw [he]
          exact ⟨hnew, hrem, hk, by simp⟩
      · have he : handle_settings_button_click newCfg ⟨STATE_WORK, k, r, kind, b⟩ =
            ⟨STATE_WORK, k, r, kind, false⟩ := by
          simp [handle_settings_button_click, hb]
        rw [he]
        exact ⟨hnew, hrem, hk, by simp⟩
  case STATE_SHORT_BREAK =>
      by_cases hb : b = true
      · by_cases hr2 : r > 0
        · have he : handle_settings_button_click newCfg ⟨STATE_SHORT_BREAK, k, r, kind, b⟩ =
              ⟨STATE_SHORT_BREAK, k, r, kind, true⟩ := by
            simp [handle_settings_button_click, hb, hr2]
          rw [he]
          exact ⟨hnew, hrem, hk, by simp⟩
        · have he : handle_settings_button_click newCfg ⟨STATE_SHORT_BREAK, k, r, kind, b⟩ =
              ⟨STATE_SHORT_BREAK, k, r, kind, false⟩ := by
            simp [handle_settings_button_click, hb, hr2]
          rw [he]
          exact ⟨hnew, hrem, hk, by simp⟩
      · have he : handle_settings_button_click newCfg ⟨STATE_SHORT_BREAK, k, r, kind, b⟩ =
            ⟨STATE_SHORT_BREAK, k, r, kind, false⟩ := by
          simp [handle_settings_button_click, hb]
        rw [he]
        exact ⟨hnew, hrem, hk, by simp⟩
  case STATE_LONG_BREAK =>
      by_cases hb : b = true
      · by_cases hr2 : r > 0
        · have he : handle_settings_button_click newCfg ⟨STATE_LONG_BREAK, k, r, kind, b⟩ =
              ⟨STATE_LONG_BREAK, k, r, kind, true⟩ := by
            simp [handle_settings_button_click, hb, hr2]
          rw [he]
          exact ⟨hnew, hrem, hk, by simp⟩
        · have he : handle_settings_button_click newCfg ⟨STATE_LONG_BREAK, k, r, kind, b⟩ =
              ⟨STATE_LONG_BREAK, k, r, kind, false⟩ := by
            simp [handle_settings_button_click, hb, hr2]
          rw [he]
          exact ⟨hnew, hrem, hk, by simp⟩
      · have he : handle_settings_button_click newCfg ⟨STATE_LONG_BREAK, k, r, kind, b⟩ =
            ⟨STATE_LONG_BREAK, k, r, kind, false⟩ := by
          simp [handle_settings_button_click, hb]
        rw [he]
        exact ⟨hnew, hrem, hk, by simp⟩

theorem reachable_inv {cfg : PomodoroConfig} {st : SessionState}
    (h : Reachable cfg st) : Inv cfg st := by
  induction h with
  | init cfg hcfg =>
      rw [initial_state_eq]
      exact ⟨hcfg, by simpa using le_of_lt (durations_pos cfg hcfg).1, by simp,
        fun _ => ⟨rfl, rfl⟩⟩
  | main_action h ih => exact inv_main_action _ _ ih
  | timer_tick h hact ih => exact inv_tick _ _ ih hact
  | snooze_click h ih => exact inv_snooze _ _ ih
  | skip_click h ih => exact inv_skip _ _ ih
  | reset_click h ih => exact inv_reset _ _ ih
  | settings_click newCfg hcfg h ih => exact inv_settings _ _ _ ih hcfg

/-- Running a freshly started work phase to natural completion: the
work duration ticks away and completion routes by the post-increment
cycle count. -/
theorem work_run (cfg : PomodoroConfig) (hpos : cfg.positive) (k : Int) (hk : 0 ≤ k)
    (kind : String) :
    (tickN cfg cfg.get_work_duration_seconds.toNat
        (⟨STATE_WORK, k, cfg.get_work_duration_seconds, kind, true⟩, [])).1 =
      (if (k + 1) % cfg.cycles_before_long_break = 0 then
        ⟨STATE_WAITING_FOR_LONG_BREAK_CONFIRMATION, k + 1,
          cfg.get_long_break_seconds, kind, false⟩
      else
        ⟨STATE_WAITING_FOR_SHORT_BREAK_CONFIRMATION, k + 1,
          cfg.get_short_break_seconds, kind, false⟩ : SessionState) := by
  have hws := work_seconds_pos cfg hpos
  have h1 := (tickN_run cfg cfg.get_work_duration_seconds.toNat
    ⟨STATE_WORK, k, cfg.get_work_duration_seconds, kind, true⟩ [] rfl
    (by simp; omega) (by omega)).1
  rw [h1]
  have h2 := process_work_full cfg k hk 0 kind false
  by_cases hmod : (k + 1) % cfg.cycles_before_long_break = 0
  · rw [if_pos hmod] at h2 ⊢
    exact congrArg Prod.fst h2
  · rw [if_neg hmod] at h2 ⊢
    exact congrArg Prod.fst h2

/-- One full work round from idle or a pending break confirmation. -/
theorem round_step (cfg : PomodoroConfig) (hpos : cfg.positive) (st : SessionState)
    (hcyc : 0 ≤ st.cycles_completed)
    (hphase : st.current_state = STATE_IDLE ∨
      st.current_state = STATE_WAITING_FOR_SHORT_BREAK_CONFIRMATION ∨
      st.current_state = STATE_WAITING_FOR_LONG_BREAK_CONFIRMATION) :
    complete_one_work_round cfg st =
      (if (st.cycles_completed + 1) % cfg.cycles_before_long_break = 0 then
        ⟨STATE_WAITING_FOR_LONG_BREAK_CONFIRMATION, st.cycles_completed + 1,
          cfg.get_long_break_seconds, st.session_type_to_confirm_after_snooze, false⟩
      else
        ⟨STATE_WAITING_FOR_SHORT_BREAK_CONFIRMATION, st.cycles_completed + 1,
          cfg.get_short_break_seconds, st.session_type_to_confirm_after_snooze,
          false⟩ : SessionState) := by
  have hws := work_seconds_pos cfg hpos
  have hstart : complete_one_work_round cfg st =
      (tickN cfg cfg.get_work_duration_seconds.toNat
        (⟨STATE_WORK, st.cycles_completed, cfg.get_work_duration_seconds,
          st.session_type_to_confirm_after_snooze, true⟩, [])).1 := by
    rcases hphase with h | h | h <;>
      simp [complete_one_work_round, handle_skip_button_click,
        handle_main_action_button_click, transition_to_state, set_time_for_state,
        process_timed_session_completion, h, hws]
  rw [hstart, work_run cfg hpos st.cycles_completed hcyc]

/-- Iterating full work rounds from the fresh dialog: the cycle counter
counts the rounds and the state keeps alternating between the two break
confirmations. -/
theorem rounds_state (cfg : PomodoroConfig) (hpos : cfg.positive) :
    ∀ N : Nat,
      ((complete_one_work_round cfg)^[N] (initial_state cfg)).cycles_completed =
          (N : Int) ∧
        (((complete_one_work_round cfg)^[N] (initial_state cfg)).current_state =
            STATE_IDLE ∨
          ((complete_one_work_round cfg)^[N] (initial_state cfg)).current_state =
            STATE_WAITING_FOR_SHORT_BREAK_CONFIRMATION ∨
          ((complete_one_work_round cfg)^[N] (initial_state cfg)).current_state =
            STATE_WAITING_FOR_LONG_BREAK_CONFIRMATION) := by
  intro N
  induction N with
  | zero => rw [Function.iterate_zero_apply, initial_state_eq]; exact ⟨rfl, Or.inl rfl⟩
  | succ n ih =>
      obtain ⟨ih1, ih2⟩ := ih
      rw [Function.iterate_succ_apply',
        round_step cfg hpos _ (by rw [ih1]; exact_mod_cast Int.ofNat_nonneg n) ih2]
      split_ifs <;> constructor <;> simp [ih1]

theorem snooze_seconds_pos (cfg : PomodoroConfig) (hpos : cfg.positive) :
    (0 : Int) < cfg.get_snooze_duration_seconds := by
  have h := hpos.2.2.2.2
  unfold PomodoroConfig.get_snooze_duration_seconds
  omega

theorem process_work_events_count (cfg : PomodoroConfig) (k r : Int) (kind : String)
    (b : Bool) :
    countSessionFinished
      (process_timed_session_completion cfg ⟨STATE_WORK, k, r, kind, b⟩).2 = 1 := by
  simp only [process_timed_session_completion, transition_to_state, set_time_for_state]
  split_ifs <;> simp_all [countSessionFinished]

/-- Completion emits `pomodoro_session_finished` exactly once for a
finished work or break phase and never otherwise. -/
theorem countSF_process (cfg : PomodoroConfig) (st : SessionState) :
    countSessionFinished (process_timed_session_completion cfg st).2 =
      if st.current_state = STATE_WORK ∨ st.current_state = STATE_SHORT_BREAK ∨
          st.current_state = STATE_LONG_BREAK then 1 else 0 := by
  obtain ⟨cs, k, r, kind, b⟩ := st
  cases cs
  case STATE_WORK => simpa using process_work_events_count cfg k r kind b
  case STATE_SHORT_BREAK => rw [process_short_full]; simp [countSessionFinished]
  case STATE_LONG_BREAK => rw [process_long_full]; simp [countSessionFinished]
  case STATE_SNOOZING =>
      rw [process_snoozing_full]
      split_ifs <;> simp_all [countSessionFinished]
  case STATE_IDLE => rw [process_idle_full]; simp [countSessionFinished]
  case STATE_WAITING_FOR_WORK_CONFIRMATION =>
      rw [process_wait_work_full]; simp [countSessionFinished]
  case STATE_WAITING_FOR_SHORT_BREAK_CONFIRMATION =>
      rw [process_wait_short_full]; simp [countSessionFinished]
  case STATE_WAITING_FOR_LONG_BREAK_CONFIRMATION =>
      rw [process_wait_long_full]; simp [countSessionFinished]

/-- A single tick emits `pomodoro_session_finished` exactly when it
completes a running work or break phase. -/
theorem countSF_tick (cfg : PomodoroConfig) (st : SessionState) :
    countSessionFinished (update_timer_countdown cfg st).2 =
      if st.timer_active = true ∧ st.remaining_seconds ≤ 1 ∧
          (st.current_state = STATE_WORK ∨ st.current_state = STATE_SHORT_BREAK ∨
            st.current_state = STATE_LONG_BREAK) then 1 else 0 := by
  obtain ⟨cs, k, r, kind, b⟩ := st
  cases b
  case false =>
      have he : (update_timer_countdown cfg ⟨cs, k, r, kind, false⟩).2 = [] := by
        by_cases hr : r > 0 <;> simp [update_timer_countdown, hr]
      rw [he]
      simp [countSessionFinished]
  case true =>
      by_cases hr1 : r > 0
      · by_cases hr2 : r - 1 ≤ 0
        · have he : (update_timer_countdown cfg ⟨cs, k, r, kind, true⟩).2 =
              PomEvent.pomodoro_state_changed cs (r - 1) ::
                (process_timed_session_completion cfg ⟨cs, k, r - 1, kind, false⟩).2 := by
            simp [update_timer_countdown, hr1, hr2]
          rw [he]
          have hle : r ≤ 1 := by omega
          simp [countSessionFinished, countSF_process, hle]
        · have he : (update_timer_countdown cfg ⟨cs, k, r, kind, true⟩).2 =
              [PomEvent.pomodoro_state_changed cs (r - 1)] := by
            simp [update_timer_countdown, hr1, hr2]
          rw [he]
          have hgt : ¬ (r ≤ 1) := by omega
          simp [countSessionFinished, hgt]
      · have he : (update_timer_countdown cfg ⟨cs, k, r, kind, true⟩).2 =
            (process_timed_session_completion cfg ⟨cs, k, r, kind, false⟩).2 := by
          simp [update_timer_countdown, hr1, show r ≤ 0 by omega]
        rw [he]
        have hle : r ≤ 1 := by omega
        simp [countSF_process, hle]

/-- The skip button emits `pomodoro_session_finished` exactly once when
it cuts short a work or break phase or skips out of a confirmation, and
never from snoozing or idle. -/
theorem countSF_skip (cfg : PomodoroConfig) (st : SessionState) :
    countSessionFinished (handle_skip_button_click cfg st).2 =
      if st.current_state = STATE_WORK ∨ st.current_state = STATE_SHORT_BREAK ∨
          st.current_state = STATE_LONG_BREAK ∨
          st.current_state = STATE_WAITING_FOR_WORK_CONFIRMATION ∨
          st.current_state = STATE_WAITING_FOR_SHORT_BREAK_CONFIRMATION ∨
          st.current_state = STATE_WAITING_FOR_LONG_BREAK_CONFIRMATION
        then 1 else 0 := by
  obtain ⟨cs, k, r, kind, b⟩ := st
  cases cs
  case STATE_WORK =>
      have he : (handle_skip_button_click cfg ⟨STATE_WORK, k, r, kind, b⟩).2 =
          (process_timed_session_completion cfg ⟨STATE_WORK, k, 0, kind, false⟩).2 := by
        simp [handle_skip_button_click]
      rw [he]
      simp [countSF_process]
  case STATE_SHORT_BREAK =>
      have he : (handle_skip_button_click cfg ⟨STATE_SHORT_BREAK, k, r, kind, b⟩).2 =
          (process_timed_session_completion cfg
            ⟨STATE_SHORT_BREAK, k, 0, kind, false⟩).2 := by
        simp [handle_skip_button_click]
      rw [he]
      simp [countSF_process]
  case STATE_LONG_BREAK =>
      have he : (handle_skip_button_click cfg ⟨STATE_LONG_BREAK, k, r, kind, b⟩).2 =
          (process_timed_session_completion cfg
            ⟨STATE_LONG_BREAK, k, 0, kind, false⟩).2 := by
        simp [handle_skip_button_click]
      rw [he]
      simp [countSF_process]
  case STATE_SNOOZING =>
      have he : (handle_skip_button_click cfg ⟨STATE_SNOOZING, k, r, kind, b⟩).2 =
          (process_timed_session_completion cfg
            ⟨STATE_SNOOZING, k, 0, kind, false⟩).2 := by
        simp [handle_skip_button_click]
      rw [he]
      simp [countSF_process]
  case STATE_WAITING_FOR_WORK_CONFIRMATION =>
      by_cases hm : (k + 1) % cfg.cycles_before_long_break = 0 <;>
        simp [handle_skip_button_click, transition_to_state, set_time_for_state, hm,
          countSessionFinished]
  case STATE_WAITING_FOR_SHORT_BREAK_CONFIRMATION =>
      simp [handle_skip_button_click, transition_to_state, set_time_for_state,
        countSessionFinished]
  case STATE_WAITING_FOR_LONG_BREAK_CONFIRMATION =>
      simp [handle_skip_button_click, transition_to_state, set_time_for_state,
        countSessionFinished]
  case STATE_IDLE =>
      simp [handle_skip_button_click, countSessionFinished]

/-- Claim C1: every completion of a work phase (natural countdown to
zero, skip during work, or skip from the waiting-for-work confirmation)
increments `cycles_completed` by exactly one, and the next phase is the
long-break confirmation exactly when the post-increment count is
divisible by `cycles_before_long_break`, otherwise the short-break
confirmation; and after N consecutive completed work rounds since the
fresh start, `cycles_completed` equals N. -/
theorem claim_C1 (cfg : PomodoroConfig) (hpos : cfg.positive) :
    (∀ st : SessionState, 0 ≤ st.cycles_completed → st.current_state = STATE_WORK →
      ((process_timed_session_completion cfg st).1.cycles_completed =
          st.cycles_completed + 1 ∧
        ((process_timed_session_completion cfg st).1.current_state =
            STATE_WAITING_FOR_LONG_BREAK_CONFIRMATION ↔
          (st.cycles_completed + 1) % cfg.cycles_before_long_break = 0) ∧
        ((process_timed_session_completion cfg st).1.current_state =
            STATE_WAITING_FOR_SHORT_BREAK_CONFIRMATION ↔
          ¬ (st.cycles_completed + 1) % cfg.cycles_before_long_break = 0)) ∧
      ((handle_skip_button_click cfg st).1.cycles_completed =
          st.cycles_completed + 1 ∧
        ((handle_skip_button_click cfg st).1.current_state =
            STATE_WAITING_FOR_LONG_BREAK_CONFIRMATION ↔
          (st.cycles_completed + 1) % cfg.cycles_before_long_break = 0) ∧
        ((handle_skip_button_click cfg st).1.current_state =
            STATE_WAITING_FOR_SHORT_BREAK_CONFIRMATION ↔
          ¬ (st.cycles_completed + 1) % cfg.cycles_before_long_break = 0))) ∧
    (∀ st : SessionState, 0 ≤ st.cycles_completed →
      st.current_state = STATE_WAITING_FOR_WORK_CONFIRMATION →
      ((handle_skip_button_click cfg st).1.cycles_completed =
          st.cycles_completed + 1 ∧
        ((handle_skip_button_click cfg st).1.current_state =
            STATE_WAITING_FOR_LONG_BREAK_CONFIRMATION ↔
          (st.cycles_completed + 1) % cfg.cycles_before_long_break = 0) ∧
        ((handle_skip_button_click cfg st).1.current_state =
            STATE_WAITING_FOR_SHORT_BREAK_CONFIRMATION ↔
          ¬ (st.cycles_completed + 1) % cfg.cycles_before_long_break = 0))) ∧
    (∀ N : Nat,
      ((complete_one_work_round cfg)^[N] (initial_state cfg)).cycles_completed =
        (N : Int)) := by
  refine ⟨?_, ?_, fun N => (rounds_state cfg hpos N).1⟩
  · intro st hk hcs
    obtain ⟨cs, k, r, kind, b⟩ := st
    simp at hk hcs
    subst hcs
    constructor
    · rw [process_work_full cfg k hk]
      split_ifs with hm
      · exact ⟨by simp, by simp [hm], by simp [hm]⟩
      · exact ⟨by simp, by simp [hm], by simp [hm]⟩
    · have he : (handle_skip_button_click cfg ⟨STATE_WORK, k, r, kind, b⟩).1 =
          (process_timed_session_completion cfg ⟨STATE_WORK, k, 0, kind, false⟩).1 := by
        simp [handle_skip_button_click]
      rw [he, process_work_full cfg k hk]
      split_ifs with hm
      · exact ⟨by simp, by simp [hm], by simp [hm]⟩
      · exact ⟨by simp, by simp [hm], by simp [hm]⟩
  · intro st hk hcs
    obtain ⟨cs, k, r, kind, b⟩ := st
    simp at hk hcs
    subst hcs
    by_cases hm : (k + 1) % cfg.cycles_before_long_break = 0
    · have he : (handle_skip_button_click cfg
          ⟨STATE_WAITING_FOR_WORK_CONFIRMATION, k, r, kind, b⟩).1 =
          ⟨STATE_WAITING_FOR_LONG_BREAK_CONFIRMATION, k + 1,
            cfg.get_long_break_seconds, kind, false⟩ := by
        simp [handle_skip_button_click, transition_to_state, set_time_for_state, hm]
      rw [he]
      exact ⟨by simp, by simp [hm], by simp [hm]⟩
    · have he : (handle_skip_button_click cfg
          ⟨STATE_WAITING_FOR_WORK_CONFIRMATION, k, r, kind, b⟩).1 =
          ⟨STATE_WAITING_FOR_SHORT_BREAK_CONFIRMATION, k + 1,
            cfg.get_short_break_seconds, kind, false⟩ := by
        simp [handle_skip_button_click, transition_to_state, set_time_for_state, hm]
      rw [he]
      exact ⟨by simp, by simp [hm], by simp [hm]⟩

/-- Witness for C1 at the default configuration: zero completed rounds
from the fresh dialog give a zero counter. -/
theorem claim_C1_witness :
    PomodoroConfig.default.positive ∧
    ((complete_one_work_round PomodoroConfig.default)^[0]
        (initial_state PomodoroConfig.default)).cycles_completed = ((0 : Nat) : Int) :=
  ⟨by decide, (claim_C1 PomodoroConfig.default (by decide)).2.2 0⟩

/-- Claim C2: snoozing any of the three confirmations and letting the
snooze countdown expire, or skipping it, returns to exactly the same
confirmation phase with the cycle counter unchanged. -/
theorem claim_C2 (cfg : PomodoroConfig) (hpos : cfg.positive) (st : SessionState)
    (hphase : st.current_state = STATE_WAITING_FOR_WORK_CONFIRMATION ∨
      st.current_state = STATE_WAITING_FOR_SHORT_BREAK_CONFIRMATION ∨
      st.current_state = STATE_WAITING_FOR_LONG_BREAK_CONFIRMATION) :
    ((tickN cfg cfg.get_snooze_duration_seconds.toNat
        ((handle_snooze_button_click cfg st).1, [])).1.current_state =
        st.current_state ∧
      (tickN cfg cfg.get_snooze_duration_seconds.toNat
        ((handle_snooze_button_click cfg st).1, [])).1.cycles_completed =
        st.cycles_completed) ∧
    ((handle_skip_button_click cfg
        (handle_snooze_button_click cfg st).1).1.current_state = st.current_state ∧
      (handle_skip_button_click cfg
        (handle_snooze_button_click cfg st).1).1.cycles_completed =
        st.cycles_completed) := by
  have hsn := snooze_seconds_pos cfg hpos
  obtain ⟨cs, k, r, kind, b⟩ := st
  simp at hphase
  rcases hphase with hcs | hcs | hcs
  all_goals subst hcs
  case inl =>
      have hs1 : (handle_snooze_button_click cfg
          ⟨STATE_WAITING_FOR_WORK_CONFIRMATION, k, r, kind, b⟩).1 =
          ⟨STATE_SNOOZING, k, cfg.get_snooze_duration_seconds, "work", true⟩ := by
        simp [handle_snooze_button_click, transition_to_state, set_time_for_state, hsn]
      have h1 := (tickN_run cfg cfg.get_snooze_duration_seconds.toNat
        ⟨STATE_SNOOZING, k, cfg.get_snooze_duration_seconds, "work", true⟩ [] rfl
        (by simp; omega) (by omega)).1
      have hs2 : (handle_skip_button_click cfg
          ⟨STATE_SNOOZING, k, cfg.get_snooze_duration_seconds, "work", true⟩).1 =
          (process_timed_session_completion cfg
            ⟨STATE_SNOOZING, k, 0, "work", false⟩).1 := by
        simp [handle_skip_button_click]
      rw [hs1]
      refine ⟨?_, ?_⟩
      · rw [h1]
        simp [process_snoozing_full]
      · rw [hs2]
        simp [process_snoozing_full]
  case inr.inl =>
      have hs1 : (handle_snooze_button_click cfg
          ⟨STATE_WAITING_FOR_SHORT_BREAK_CONFIRMATION, k, r, kind, b⟩).1 =
          ⟨STATE_SNOOZING, k, cfg.get_snooze_duration_seconds, "short_break", true⟩ := by
        simp [handle_snooze_button_click, transition_to_state, set_time_for_state, hsn]
      have h1 := (tickN_run cfg cfg.get_snooze_duration_seconds.toNat
        ⟨STATE_SNOOZING, k, cfg.get_snooze_duration_seconds, "short_break", true⟩ [] rfl
        (by simp; omega) (by omega)).1
      have hs2 : (handle_skip_button_click cfg
          ⟨STATE_SNOOZING, k, cfg.get_snooze_duration_seconds, "short_break", true⟩).1 =
          (process_timed_session_completion cfg
            ⟨STATE_SNOOZING, k, 0, "short_break", false⟩).1 := by
        simp [handle_skip_button_click]
      rw [hs1]
      refine ⟨?_, ?_⟩
      · rw [h1]
        simp [process_snoozing_full]
      · rw [hs2]
        simp [process_snoozing_full]
  case inr.inr =>
      have hs1 : (handle_snooze_button_click cfg
          ⟨STATE_WAITING_FOR_LONG_BREAK_CONFIRMATION, k, r, kind, b⟩).1 =
          ⟨STATE_SNOOZING, k, cfg.get_snooze_duration_seconds, "long_break", true⟩ := by
        simp [handle_snooze_button_click, transition_to_state, set_time_for_state, hsn]
      have h1 := (tickN_run cfg cfg.get_snooze_duration_seconds.toNat
        ⟨STATE_SNOOZING, k, cfg.get_snooze_duration_seconds, "long_break", true⟩ [] rfl
        (by simp; omega) (by omega)).1
      have hs2 : (handle_skip_button_click cfg
          ⟨STATE_SNOOZING, k, cfg.get_snooze_duration_seconds, "long_break", true⟩).1 =
          (process_timed_session_completion cfg
            ⟨STATE_SNOOZING, k, 0, "long_break", false⟩).1 := by
        simp [handle_skip_button_click]
      rw [hs1]
      refine ⟨?_, ?_⟩
      · rw [h1]
        simp [process_snoozing_full]
      · rw [hs2]
        simp [process_snoozing_full]

/-- Witness for C2: snoozing the work confirmation and skipping the
snooze returns to the work confirmation. -/
theorem claim_C2_witness :
    PomodoroConfig.default.positive ∧
    ((⟨STATE_WAITING_FOR_WORK_CONFIRMATION, 0, 1500, "", false⟩ :
        SessionState).current_state = STATE_WAITING_FOR_WORK_CONFIRMATION ∨
      (⟨STATE_WAITING_FOR_WORK_CONFIRMATION, 0, 1500, "", false⟩ :
        SessionState).current_state = STATE_WAITING_FOR_SHORT_BREAK_CONFIRMATION ∨
      (⟨STATE_WAITING_FOR_WORK_CONFIRMATION, 0, 1500, "", false⟩ :
        SessionState).current_state = STATE_WAITING_FOR_LONG_BREAK_CONFIRMATION) ∧
    (handle_skip_button_click PomodoroConfig.default
        (handle_snooze_button_click PomodoroConfig.default
          ⟨STATE_WAITING_FOR_WORK_CONFIRMATION, 0, 1500, "", false⟩).1).1.current_state =
      (⟨STATE_WAITING_FOR_WORK_CONFIRMATION, 0, 1500, "", false⟩ :
        SessionState).current_state :=
  ⟨by decide, Or.inl rfl,
    ((claim_C2 PomodoroConfig.default (by decide)
      ⟨STATE_WAITING_FOR_WORK_CONFIRMATION, 0, 1500, "", false⟩ (Or.inl rfl)).2).1⟩

/-- Counterexample to claim C3 as stated: the claim demands
`remaining_seconds = 0` after reset, but resetting the freshly
constructed dialog (a reachable state) leaves the countdown preloaded
with the default work duration of 1500 seconds, not zero. -/
theorem claim_C3_counterexample :
    Reachable PomodoroConfig.default (initial_state PomodoroConfig.default) ∧
    (handle_reset_button_click PomodoroConfig.default
        (initial_state PomodoroConfig.default)).1.remaining_seconds = 1500 ∧
    ¬ ((1500 : Int) = 0) :=
  ⟨Reachable.init _ (by decide), by decide, by decide⟩

/-- Claim C3 (amended): from any state, reset yields the idle phase with
the timer stopped, the cycle counter zeroed, and the countdown preloaded
to the configured work duration (the idle preview), not zero. -/
theorem claim_C3 (cfg : PomodoroConfig) (st : SessionState) :
    (handle_reset_button_click cfg st).1.current_state = STATE_IDLE ∧
    (handle_reset_button_click cfg st).1.remaining_seconds =
      cfg.get_work_duration_seconds ∧
    (handle_reset_button_click cfg st).1.timer_active = false ∧
    (handle_reset_button_click cfg st).1.cycles_completed = 0 := by
  simp [handle_reset_button_click, go_to_idle_state, transition_to_state,
    set_time_for_state]

/-- Counterexample to claim C4 as stated: the freshly constructed dialog
is reachable, idle, and displays 1500 remaining seconds, not zero. -/
theorem claim_C4_counterexample :
    Reachable PomodoroConfig.default (initial_state PomodoroConfig.default) ∧
    (initial_state PomodoroConfig.default).current_state = STATE_IDLE ∧
    (initial_state PomodoroConfig.default).remaining_seconds = 1500 ∧
    ¬ ((1500 : Int) = 0) :=
  ⟨Reachable.init _ (by decide), by decide, by decide, by decide⟩

/-- Claim C4 (amended): in every reachable state, the idle phase
displays the configured work duration (not zero) and has the timer
stopped. -/
theorem claim_C4 (cfg : PomodoroConfig) (st : SessionState) (h : Reachable cfg st)
    (hidle : st.current_state = STATE_IDLE) :
    st.remaining_seconds = cfg.get_work_duration_seconds ∧ st.timer_active = false :=
  (reachable_inv h).2.2.2 hidle

/-- Witness for C4 at the freshly constructed dialog. -/
theorem claim_C4_witness :
    (initial_state PomodoroConfig.default).current_state = STATE_IDLE ∧
    (initial_state PomodoroConfig.default).remaining_seconds =
      PomodoroConfig.default.get_work_duration_seconds :=
  ⟨by decide, (claim_C4 _ _ (Reachable.init _ (by decide)) (by decide)).1⟩

/-- Claim C5: every completion enters an awaiting state with the timer
stopped and the countdown preloaded with the duration of the confirm
kind target phase; in particular skipping out of the short-break
confirmation emits exactly the finished-break and work-confirmation
events (no per-second tick events) and preloads the work duration. -/
theorem claim_C5 (cfg : PomodoroConfig) (st : SessionState)
    (hk : 0 ≤ st.cycles_completed)
    (hphase : st.current_state = STATE_WORK ∨ st.current_state = STATE_SHORT_BREAK ∨
      st.current_state = STATE_LONG_BREAK ∨
      (st.current_state = STATE_SNOOZING ∧
        (st.session_type_to_confirm_after_snooze = "work" ∨
          st.session_type_to_confirm_after_snooze = "short_break" ∨
          st.session_type_to_confirm_after_snooze = "long_break"))) :
    ((process_timed_session_completion cfg st).1.timer_active = false ∧
      (((process_timed_session_completion cfg st).1.current_state =
            STATE_WAITING_FOR_WORK_CONFIRMATION ∧
          (process_timed_session_completion cfg st).1.remaining_seconds =
            cfg.get_work_duration_seconds) ∨
        ((process_timed_session_completion cfg st).1.current_state =
            STATE_WAITING_FOR_SHORT_BREAK_CONFIRMATION ∧
          (process_timed_session_completion cfg st).1.remaining_seconds =
            cfg.get_short_break_seconds) ∨
        ((process_timed_session_completion cfg st).1.current_state =
            STATE_WAITING_FOR_LONG_BREAK_CONFIRMATION ∧
          (process_timed_session_completion cfg st).1.remaining_seconds =
            cfg.get_long_break_seconds))) ∧
    (∀ st2 : SessionState,
      st2.current_state = STATE_WAITING_FOR_SHORT_BREAK_CONFIRMATION →
      handle_skip_button_click cfg st2 =
        (⟨STATE_WAITING_FOR_WORK_CONFIRMATION, st2.cycles_completed,
            cfg.get_work_duration_seconds, st2.session_type_to_confirm_after_snooze,
            false⟩,
          [PomEvent.pomodoro_session_finished STATE_SHORT_BREAK,
            PomEvent.pomodoro_confirmation_required "work"])) := by
  refine ⟨?_, ?_⟩
  · obtain ⟨cs, k, r, kind, b⟩ := st
    simp at hk hphase
    rcases hphase with hcs | hcs | hcs | ⟨hcs, hkind⟩
    · subst hcs
      rw [process_work_full cfg k hk]
      split_ifs <;> exact ⟨rfl, by simp⟩
    · subst hcs
      rw [process_short_full]
      exact ⟨rfl, by simp⟩
    · subst hcs
      rw [process_long_full]
      exact ⟨rfl, by simp⟩
    · subst hcs
      rcases hkind with h | h | h <;> subst h <;> simp [process_snoozing_full]
  · intro st2 hcs2
    obtain ⟨cs2, k2, r2, kind2, b2⟩ := st2
    simp at hcs2
    subst hcs2
    simp [handle_skip_button_click, transition_to_state, set_time_for_state]

/-- Witness for C5 at a concrete running short break. -/
theorem claim_C5_witness :
    0 ≤ ((⟨STATE_SHORT_BREAK, 0, 3, "", true⟩ : SessionState)).cycles_completed ∧
    (process_timed_session_completion PomodoroConfig.default
      ⟨STATE_SHORT_BREAK, 0, 3, "", true⟩).1.timer_active = false :=
  ⟨by decide,
    (claim_C5 PomodoroConfig.default ⟨STATE_SHORT_BREAK, 0, 3, "", true⟩ (by decide)
      (Or.inr (Or.inl rfl))).1.1⟩

/-- Counterexample to claim C6 as stated: the paused work state below is
reachable (start work, then pause), its timer is stopped, yet the skip
button does not leave the state unchanged - it completes the session. -/
theorem claim_C6_counterexample :
    Reachable PomodoroConfig.default ⟨STATE_WORK, 0, 1500, "", false⟩ ∧
    (⟨STATE_WORK, 0, 1500, "", false⟩ : SessionState).timer_active = false ∧
    ¬ (handle_skip_button_click PomodoroConfig.default
        ⟨STATE_WORK, 0, 1500, "", false⟩).1 = ⟨STATE_WORK, 0, 1500, "", false⟩ := by
  refine ⟨?_, rfl, by decide⟩
  have h := Reachable.main_action (Reachable.main_action
    (Reachable.init PomodoroConfig.default (by decide)))
  have he : (handle_main_action_button_click PomodoroConfig.default
      (handle_main_action_button_click PomodoroConfig.default
        (initial_state PomodoroConfig.default)).1).1 =
      ⟨STATE_WORK, 0, 1500, "", false⟩ := by decide
  rwa [he] at h

/-- Claim C6 (amended): skip from idle with the timer stopped and snooze
from any non-confirmation phase return without effect, changing nothing
and emitting nothing, and no handler fails; but skip from a paused timed
phase is processed as a normal skip (it zeroes the countdown and runs
completion), and the tick callback invoked while the timer is inactive
still silently decrements a positive countdown. -/
theorem claim_C6 (cfg : PomodoroConfig) (st : SessionState) :
    (st.current_state = STATE_IDLE → st.timer_active = false →
      handle_skip_button_click cfg st = (st, [])) ∧
    ((¬ st.current_state = STATE_WAITING_FOR_WORK_CONFIRMATION ∧
      ¬ st.current_state = STATE_WAITING_FOR_SHORT_BREAK_CONFIRMATION ∧
      ¬ st.current_state = STATE_WAITING_FOR_LONG_BREAK_CONFIRMATION) →
      handle_snooze_button_click cfg st = (st, [])) ∧
    ((st.current_state = STATE_WORK ∨ st.current_state = STATE_SHORT_BREAK ∨
        st.current_state = STATE_LONG_BREAK ∨ st.current_state = STATE_SNOOZING) →
      (handle_skip_button_click cfg st).1 =
        (process_timed_session_completion cfg
          { st with remaining_seconds := 0, timer_active := false }).1) ∧
    (st.timer_active = false → 0 < st.remaining_seconds →
      update_timer_countdown cfg st =
        ({ st with remaining_seconds := st.remaining_seconds - 1 }, [])) := by
  obtain ⟨cs, k, r, kind, b⟩ := st
  refine ⟨?_, ?_, ?_, ?_⟩
  · intro hcs hb
    simp at hcs hb
    subst hcs
    subst hb
    simp [handle_skip_button_click]
  · intro ⟨h1, h2, h3⟩
    simp at h1 h2 h3
    cases cs <;> simp_all <;> simp [handle_snooze_button_click]
  · intro hcs
    simp at hcs
    rcases hcs with h | h | h | h <;> subst h <;> simp [handle_skip_button_click]
  · intro hb hr
    simp at hb hr
    subst hb
    simp [update_timer_countdown, hr]

/-- Witness for C6: skip from the idle preview state is a no-op. -/
theorem claim_C6_witness :
    (⟨STATE_IDLE, 0, 1500, "", false⟩ : SessionState).current_state = STATE_IDLE ∧
    (⟨STATE_IDLE, 0, 1500, "", false⟩ : SessionState).timer_active = false ∧
    handle_skip_button_click PomodoroConfig.default ⟨STATE_IDLE, 0, 1500, "", false⟩ =
      (⟨STATE_IDLE, 0, 1500, "", false⟩, []) :=
  ⟨rfl, rfl,
    (claim_C6 PomodoroConfig.default ⟨STATE_IDLE, 0, 1500, "", false⟩).1 rfl rfl⟩

/-- Claim C7: `pomodoro_session_finished` is emitted exactly once per
completion of a work or break phase - by the completion routine, by a
tick that finishes a running work or break countdown, or by a skip from
a work or break phase or from any confirmation - and never when a
snooze countdown completes or is skipped. -/
theorem claim_C7 (cfg : PomodoroConfig) (st : SessionState) :
    (countSessionFinished (process_timed_session_completion cfg st).2 =
      if st.current_state = STATE_WORK ∨ st.current_state = STATE_SHORT_BREAK ∨
          st.current_state = STATE_LONG_BREAK then 1 else 0) ∧
    (countSessionFinished (update_timer_countdown cfg st).2 =
      if st.timer_active = true ∧ st.remaining_seconds ≤ 1 ∧
          (st.current_state = STATE_WORK ∨ st.current_state = STATE_SHORT_BREAK ∨
            st.current_state = STATE_LONG_BREAK) then 1 else 0) ∧
    (countSessionFinished (handle_skip_button_click cfg st).2 =
      if st.current_state = STATE_WORK ∨ st.current_state = STATE_SHORT_BREAK ∨
          st.current_state = STATE_LONG_BREAK ∨
          st.current_state = STATE_WAITING_FOR_WORK_CONFIRMATION ∨
          st.current_state = STATE_WAITING_FOR_SHORT_BREAK_CONFIRMATION ∨
          st.current_state = STATE_WAITING_FOR_LONG_BREAK_CONFIRMATION
        then 1 else 0) :=
  ⟨countSF_process cfg st, countSF_tick cfg st, countSF_skip cfg st⟩

set_option maxRecDepth 40000 in
/-- Counterexample to claim C8 as stated: with work set to 2 minutes,
starting work from the fresh dialog and ticking exactly 120 times emits
one finished-session event, but the countdown then reads the short-break
preview of 60 seconds, not 0 - completion immediately preloads the next
confirmation preview. -/
theorem claim_C8_counterexample :
    (0 : Int) < (⟨2, 1, 1, 4, 1⟩ : PomodoroConfig).get_work_duration_seconds ∧
    (handle_main_action_button_click ⟨2, 1, 1, 4, 1⟩
        (initial_state ⟨2, 1, 1, 4, 1⟩)).1.remaining_seconds = 120 ∧
    countSessionFinished
      (tickN ⟨2, 1, 1, 4, 1⟩ 120
        ((handle_main_action_button_click ⟨2, 1, 1, 4, 1⟩
          (initial_state ⟨2, 1, 1, 4, 1⟩)).1, [])).2 = 1 ∧
    (tickN ⟨2, 1, 1, 4, 1⟩ 120
        ((handle_main_action_button_click ⟨2, 1, 1, 4, 1⟩
          (initial_state ⟨2, 1, 1, 4, 1⟩)).1, [])).1.remaining_seconds = 60 ∧
    ¬ ((60 : Int) = 0) := by
  decide

/-- Claim C8 (amended): running a freshly started work or break phase of
configured duration D for exactly D ticks emits exactly one
finished-session event; the countdown reaches zero transiently inside
the final tick and is immediately preloaded with the duration of the
next confirmation preview, so the resulting `remaining_seconds` is that
positive preview, not zero. -/
theorem claim_C8 (cfg : PomodoroConfig) (hpos : cfg.positive) (st : SessionState)
    (hact : st.timer_active = true) (hk : 0 ≤ st.cycles_completed)
    (hphase : (st.current_state = STATE_WORK ∧
        st.remaining_seconds = cfg.get_work_duration_seconds) ∨
      (st.current_state = STATE_SHORT_BREAK ∧
        st.remaining_seconds = cfg.get_short_break_seconds) ∨
      (st.current_state = STATE_LONG_BREAK ∧
        st.remaining_seconds = cfg.get_long_break_seconds)) :
    countSessionFinished (tickN cfg st.remaining_seconds.toNat (st, [])).2 = 1 ∧
    0 < (tickN cfg st.remaining_seconds.toNat (st, [])).1.remaining_seconds ∧
    (((tickN cfg st.remaining_seconds.toNat (st, [])).1.current_state =
          STATE_WAITING_FOR_WORK_CONFIRMATION ∧
        (tickN cfg st.remaining_seconds.toNat (st, [])).1.remaining_seconds =
          cfg.get_work_duration_seconds) ∨
      ((tickN cfg st.remaining_seconds.toNat (st, [])).1.current_state =
          STATE_WAITING_FOR_SHORT_BREAK_CONFIRMATION ∧
        (tickN cfg st.remaining_seconds.toNat (st, [])).1.remaining_seconds =
          cfg.get_short_break_seconds) ∨
      ((tickN cfg st.remaining_seconds.toNat (st, [])).1.current_state =
          STATE_WAITING_FOR_LONG_BREAK_CONFIRMATION ∧
        (tickN cfg st.remaining_seconds.toNat (st, [])).1.remaining_seconds =
          cfg.get_long_break_seconds)) := by
  obtain ⟨hw, hsb, hlb, hsn⟩ := durations_pos cfg hpos
  obtain ⟨cs, k, r, kind, b⟩ := st
  simp at hact hk hphase
  subst hact
  rcases hphase with ⟨hcs, hrem⟩ | ⟨hcs, hrem⟩ | ⟨hcs, hrem⟩ <;> subst hcs <;> subst hrem
  · have hrun := tickN_run cfg cfg.get_work_duration_seconds.toNat
      ⟨STATE_WORK, k, cfg.get_work_duration_seconds, kind, true⟩ [] rfl
      (by simp; omega) (by omega)
    obtain ⟨h1, h2⟩ := hrun
    refine ⟨?_, ?_, ?_⟩
    · rw [h2]
      simpa [countSessionFinished] using process_work_events_count cfg k 0 kind false
    · rw [h1, process_work_full cfg k hk]
      split_ifs <;> simp <;> omega
    · rw [h1, process_work_full cfg k hk]
      split_ifs <;> simp
  · have hrun := tickN_run cfg cfg.get_short_break_seconds.toNat
      ⟨STATE_SHORT_BREAK, k, cfg.get_short_break_seconds, kind, true⟩ [] rfl
      (by simp; omega) (by omega)
    obtain ⟨h1, h2⟩ := hrun
    refine ⟨?_, ?_, ?_⟩
    · rw [h2, process_short_full]
      simp [countSessionFinished]
    · rw [h1, process_short_full]
      simp
      omega
    · rw [h1, process_short_full]
      simp
  · have hrun := tickN_run cfg cfg.get_long_break_seconds.toNat
      ⟨STATE_LONG_BREAK, k, cfg.get_long_break_seconds, kind, true⟩ [] rfl
      (by simp; omega) (by omega)
    obtain ⟨h1, h2⟩ := hrun
    refine ⟨?_, ?_, ?_⟩
    · rw [h2, process_long_full]
      simp [countSessionFinished]
    · rw [h1, process_long_full]
      simp
      omega
    · rw [h1, process_long_full]
      simp

/-- Witness for C8 at the default configuration from a running work
phase. -/
theorem claim_C8_witness :
    PomodoroConfig.default.positive ∧
    ((⟨STATE_WORK, 0, 1500, "", true⟩ : SessionState).timer_active = true) ∧
    (0 : Int) ≤ (⟨STATE_WORK, 0, 1500, "", true⟩ : SessionState).cycles_completed ∧
    countSessionFinished
      (tickN PomodoroConfig.default
        (⟨STATE_WORK, 0, 1500, "", true⟩ : SessionState).remaining_seconds.toNat
        (⟨STATE_WORK, 0, 1500, "", true⟩, [])).2 = 1 :=
  ⟨by decide, rfl, by decide,
    (claim_C8 PomodoroConfig.default (by decide) ⟨STATE_WORK, 0, 1500, "", true⟩ rfl
      (by decide) (Or.inl ⟨rfl, by decide⟩)).1⟩

/-- Counterexample to claim C9 as stated: the running snooze below is
reachable (start work, skip it, snooze the break confirmation), yet
accepting a settings change with a 10 minute snooze re-derives the
running snooze countdown to 600 seconds instead of leaving it at 300. -/
theorem claim_C9_counterexample :
    Reachable PomodoroConfig.default ⟨STATE_SNOOZING, 1, 300, "short_break", true⟩ ∧
    (⟨STATE_SNOOZING, 1, 300, "short_break", true⟩ : SessionState).timer_active = true ∧
    (handle_settings_button_click ⟨25, 5, 15, 4, 10⟩
        ⟨STATE_SNOOZING, 1, 300, "short_break", true⟩).remaining_seconds = 600 ∧
    ¬ ((600 : Int) = 300) := by
  refine ⟨?_, rfl, by decide, by decide⟩
  have h := Reachable.snooze_click (Reachable.skip_click (Reachable.main_action
    (Reachable.init PomodoroConfig.default (by decide))))
  have he : (handle_snooze_button_click PomodoroConfig.default
      (handle_skip_button_click PomodoroConfig.default
        (handle_main_action_button_click PomodoroConfig.default
          (initial_state PomodoroConfig.default)).1).1).1 =
      ⟨STATE_SNOOZING, 1, 300, "short_break", true⟩ := by decide
  rwa [he] at h

/-- Claim C9 (amended): accepting a configuration change while a
non-running phase (idle or a confirmation) is displayed immediately
re-derives the displayed countdown from the new configuration; a change
during a work or break phase (running or paused) leaves the in-progress
countdown unchanged; but a change during snoozing always resets the
countdown to the new snooze duration, even while it is running. -/
theorem claim_C9 (newCfg : PomodoroConfig) (st : SessionState) :
    ((st.current_state = STATE_IDLE ∨
        st.current_state = STATE_WAITING_FOR_WORK_CONFIRMATION) →
      (handle_settings_button_click newCfg st).remaining_seconds =
        newCfg.get_work_duration_seconds) ∧
    (st.current_state = STATE_WAITING_FOR_SHORT_BREAK_CONFIRMATION →
      (handle_settings_button_click newCfg st).remaining_seconds =
        newCfg.get_short_break_seconds) ∧
    (st.current_state = STATE_WAITING_FOR_LONG_BREAK_CONFIRMATION →
      (handle_settings_button_click newCfg st).remaining_seconds =
        newCfg.get_long_break_seconds) ∧
    ((st.current_state = STATE_WORK ∨ st.current_state = STATE_SHORT_BREAK ∨
        st.current_state = STATE_LONG_BREAK) →
      (handle_settings_button_click newCfg st).remaining_seconds =
        st.remaining_seconds) ∧
    (st.current_state = STATE_SNOOZING →
      (handle_settings_button_click newCfg st).remaining_seconds =
        newCfg.get_snooze_duration_seconds) := by
  obtain ⟨cs, k, r, kind, b⟩ := st
  refine ⟨?_, ?_, ?_, ?_, ?_⟩
  · intro hcs
    simp at hcs
    rcases hcs with h | h <;> subst h <;>
      simp [handle_settings_button_click, set_time_for_state]
  · intro hcs
    simp at hcs
    subst hcs
    simp [handle_settings_button_click, set_time_for_state]
  · intro hcs
    simp at hcs
    subst hcs
    simp [handle_settings_button_click, set_time_for_state]
  · intro hcs
    simp at hcs
    rcases hcs with h | h | h <;> subst h <;>
      (by_cases hb : b = true
       · by_cases hr2 : r > 0
         · simp [handle_settings_button_click, hb, hr2]
         · simp [handle_settings_button_click, hb, hr2]
       · simp [handle_settings_button_click, hb])
  · intro hcs
    simp at hcs
    subst hcs
    by_cases hb : b = true
    · by_cases hr2 : newCfg.get_snooze_duration_seconds > 0
      · simp [handle_settings_button_click, set_time_for_state, hb, hr2]
      · simp [handle_settings_button_click, set_time_for_state, hb, hr2]
    · simp [handle_settings_button_click, set_time_for_state, hb]

/-- Witness for C9: a settings change while idle re-derives the idle
preview from the new work duration. -/
theorem claim_C9_witness :
    ((⟨STATE_IDLE, 0, 1500, "", false⟩ : SessionState).current_state = STATE_IDLE ∨
      (⟨STATE_IDLE, 0, 1500, "", false⟩ : SessionState).current_state =
        STATE_WAITING_FOR_WORK_CONFIRMATION) ∧
    (handle_settings_button_click ⟨30, 5, 15, 4, 5⟩
        ⟨STATE_IDLE, 0, 1500, "", false⟩).remaining_seconds =
      (⟨30, 5, 15, 4, 5⟩ : PomodoroConfig).get_work_duration_seconds :=
  ⟨Or.inl rfl,
    (claim_C9 ⟨30, 5, 15, 4, 5⟩ ⟨STATE_IDLE, 0, 1500, "", false⟩).1 (Or.inl rfl)⟩

/-- Claim C10: in every reachable state the countdown is non-negative. -/
theorem claim_C10 (cfg : PomodoroConfig) (st : SessionState) (h : Reachable cfg st) :
    0 ≤ st.remaining_seconds :=
  (reachable_inv h).2.1

/-- Witness for C10 at the freshly constructed dialog. -/
theorem claim_C10_witness :
    0 ≤ (initial_state PomodoroConfig.default).remaining_seconds :=
  claim_C10 _ _ (Reachable.init _ (by decide))

end ApeiriaLive
